import Mathlib

/-!
Verification of the listing-generation pipeline (`src/ai_module.py`) and the
storage/marketplace glue (`src/app.py`).

Python strings are modelled as lists of code points (`PyStr`), matching
Python's `len` and slicing semantics.  Every external network call
(`openai.ChatCompletion.create`, `requests.post`, `boto3` upload) is modelled
as an oracle function passed in as a parameter, returning `Except` to
distinguish a successful response from a raised transport/service exception.
Python floats are modelled as exact rationals.
-/

/-- Python strings as sequences of code points. -/
abbrev PyStr := List Char

/-- Lift a Lean string literal to the `PyStr` model. -/
def chars (s : String) : PyStr := s.data

/-- Models Python `str.strip()`: remove whitespace from both ends. -/
def pystrip (s : PyStr) : PyStr :=
  ((s.dropWhile Char.isWhitespace).reverse.dropWhile Char.isWhitespace).reverse

/-- Models Python `str.lower()` on ASCII content. -/
def pylower (s : PyStr) : PyStr := s.map Char.toLower

/-- Decimal digits to a natural number (most significant first). -/
def natOfDigits (l : List Char) : Nat :=
  l.foldl (fun acc c => 10 * acc + (c.toNat - 48)) 0

/-- Strip an optional leading sign; returns (isNegative, rest). -/
def pyfloat_sign (l : List Char) : Bool × List Char :=
  match l with
  | '-' :: rest => (true, rest)
  | '+' :: rest => (false, rest)
  | _ => (false, l)

/-- The lexical pieces of a decimal float literal: sign, integer-part
digits, fraction-part digits, exponent sign and exponent digits (empty
exponent digits mean no exponent was written). -/
structure FloatLit where
  neg : Bool
  ip : List Char
  fp : List Char
  expNeg : Bool
  ed : List Char
deriving DecidableEq

/-- Lex a decimal float literal `[sign] (digits [. digits] | . digits)
[(e|E) [sign] digits]` after stripping surrounding whitespace, as Python
`float()` accepts; `none` on any malformed or trailing input. -/
def pyfloat_lex (l : List Char) : Option FloatLit :=
  let l0 := pystrip l
  let sgn := pyfloat_sign l0
  let ip := sgn.2.takeWhile Char.isDigit
  let r1 := sgn.2.dropWhile Char.isDigit
  let fr : List Char × List Char :=
    match r1 with
    | '.' :: rest => (rest.takeWhile Char.isDigit, rest.dropWhile Char.isDigit)
    | _ => ([], r1)
  if ip.isEmpty && fr.1.isEmpty then none
  else
    match fr.2 with
    | [] => some { neg := sgn.1, ip := ip, fp := fr.1, expNeg := false, ed := [] }
    | c :: rest =>
      if c = 'e' ∨ c = 'E' then
        let es := pyfloat_sign rest
        let ed := es.2.takeWhile Char.isDigit
        let r3 := es.2.dropWhile Char.isDigit
        if ed.isEmpty || !r3.isEmpty then none
        else some { neg := sgn.1, ip := ip, fp := fr.1, expNeg := es.1, ed := ed }
      else none

/-- The exact rational value of a lexed float literal. -/
def pyfloat_val (f : FloatLit) : ℚ :=
  let mant : ℚ := (natOfDigits f.ip : ℚ) + (natOfDigits f.fp : ℚ) / 10 ^ f.fp.length
  let signed : ℚ := if f.neg then -mant else mant
  if f.expNeg then signed / 10 ^ natOfDigits f.ed else signed * 10 ^ natOfDigits f.ed

/-- Models Python `float()` on ordinary signed decimal literals with an
optional exponent, yielding the exact rational value.  Surrounding
whitespace is ignored, as `float()` does.  Underscore separators and the
special values inf/nan are outside this model (they are not real-number
literals). -/
def pyfloat (l : List Char) : Option ℚ := (pyfloat_lex l).map pyfloat_val

/-- Decimal rendering of a natural number (Python `str(i)` for the
`enumerate` index). -/
def natChars (n : Nat) : PyStr := (Nat.repr n).data

/-! ## Chat requests (`openai.ChatCompletion.create` payloads) -/

/-- One part of a multimodal user message: plain text or an inline image URL
payload. -/
inductive ContentPart
  | text (s : PyStr)
  | image_url (url : PyStr)
deriving DecidableEq

/-- Message content: a plain string or a list of multimodal parts. -/
inductive MsgContent
  | str (s : PyStr)
  | parts (l : List ContentPart)
deriving DecidableEq

/-- A chat message with a role. -/
structure ChatMessage where
  role : PyStr
  content : MsgContent
deriving DecidableEq

/-- The payload of one `openai.ChatCompletion.create` call. -/
structure ChatRequest where
  model : PyStr
  messages : List ChatMessage
  max_tokens : Nat
  temperature : Option ℚ
deriving DecidableEq

/-- The external chat service: maps a request to the response content
(`response.choices[0].message.content`) or to the message of a raised
exception. -/
abbrev Chat := ChatRequest → Except PyStr PyStr

/-! ## `eBayListingGenerator.analyze_product_images` -/

/-- The inline-encoded payload built for one image
(`data:image/jpeg;base64,` + base64 of the file bytes).  `enc` models
`encode_image` (file read + base64). -/
def image_content (enc : PyStr → PyStr) (image_path : PyStr) : ContentPart :=
  ContentPart.image_url (chars "data:image/jpeg;base64," ++ enc image_path)

/-- The image payload list of the analysis call: the loop over
`image_paths[:6]`. -/
def image_contents (enc : PyStr → PyStr) (image_paths : List PyStr) : List ContentPart :=
  (image_paths.take 6).map (image_content enc)

/-- The fixed system instruction of the Analysis Step. -/
def analysis_system_text : PyStr :=
  chars "You are an expert eBay listing assistant. Analyze the provided product images and extract detailed information about the product including:\n- Product type and brand\n- Condition assessment\n- Key features and specifications\n- Materials and dimensions if visible\n- Any defects or wear\n- Estimated value range\n\nBe thorough and accurate in your analysis."

/-- The messages of the analysis call: fixed system instruction plus a user
message whose content is the user text followed by the encoded images. -/
def analysis_messages (enc : PyStr → PyStr) (image_paths : List PyStr)
    (user_description : PyStr) : List ChatMessage :=
  [{ role := chars "system", content := MsgContent.str analysis_system_text },
   { role := chars "user",
     content := MsgContent.parts
       (ContentPart.text (chars "Please analyze these product images. Additional user description: "
          ++ user_description) :: image_contents enc image_paths) }]

/-- The full Analysis Step request: model gpt-4-vision-preview,
max_tokens 1000, no explicit temperature. -/
def analysis_request (enc : PyStr → PyStr) (image_paths : List PyStr)
    (user_description : PyStr) : ChatRequest :=
  { model := chars "gpt-4-vision-preview",
    messages := analysis_messages enc image_paths user_description,
    max_tokens := 1000,
    temperature := none }

/-- The tagged result dictionary of `analyze_product_images`:
`{"analysis": ..., "success": True}` or `{"error": ..., "success": False}`. -/
inductive AnalysisResult
  | success (analysis : PyStr)
  | failure (error : PyStr)
deriving DecidableEq

/-- `analyze_product_images`: build the request, call the service inside
try/except, and return a tagged result (never raise). -/
def analyze_product_images (create : Chat) (enc : PyStr → PyStr)
    (image_paths : List PyStr) (user_description : PyStr) : AnalysisResult :=
  match create (analysis_request enc image_paths user_description) with
  | Except.ok content => AnalysisResult.success content
  | Except.error e => AnalysisResult.failure e

/-- All inline image URLs carried by a message's content. -/
def content_images (c : MsgContent) : List PyStr :=
  match c with
  | MsgContent.str _ => []
  | MsgContent.parts l =>
    l.filterMap (fun part =>
      match part with
      | ContentPart.image_url u => some u
      | ContentPart.text _ => none)

/-- All inline image URLs contained in a request, in message order. -/
def request_images (r : ChatRequest) : List PyStr :=
  r.messages.foldr (fun msg acc => content_images msg.content ++ acc) []

/-! ## Field generators -/

/-- The prompt template of `generate_ebay_title` (indentation of the Python
source literal elided). -/
def title_prompt (product_analysis user_description : PyStr) : PyStr :=
  chars "Based on the product analysis and user description, create an optimized eBay title.\n\nProduct Analysis: " ++ product_analysis
  ++ chars "\nUser Description: " ++ user_description
  ++ chars "\n\nRules for eBay titles:\n- Maximum 80 characters\n- Include brand, model, condition, and key features\n- Use keywords that buyers search for\n- Avoid promotional language like \"RARE\" or \"AMAZING\"\n- Include size, color, or other variants if applicable\n\nGenerate only the title, no additional text."

/-- The title generation request: model gpt-4, max_tokens 100,
temperature 0.7. -/
def title_request (product_analysis user_description : PyStr) : ChatRequest :=
  { model := chars "gpt-4",
    messages := [{ role := chars "system",
                   content := MsgContent.str (chars "You are an expert eBay listing title generator.") },
                 { role := chars "user",
                   content := MsgContent.str (title_prompt product_analysis user_description) }],
    max_tokens := 100,
    temperature := some (7/10) }

/-- The 80-character cap of `generate_ebay_title`:
`title[:80] if len(title) > 80 else title`. -/
def truncate_title (title : PyStr) : PyStr :=
  if 80 < title.length then title.take 80 else title

/-- `generate_ebay_title`: call the service; on success strip and cap the
title, on exception return the error embedded in a string. -/
def generate_ebay_title (create : Chat) (product_analysis user_description : PyStr) : PyStr :=
  match create (title_request product_analysis user_description) with
  | Except.ok content => truncate_title (pystrip content)
  | Except.error e => chars "Error generating title: " ++ e

/-- The prompt template of `generate_ebay_description` (indentation
elided). -/
def description_prompt (product_analysis user_description : PyStr) : PyStr :=
  chars "Create a comprehensive eBay product description based on the analysis and user input.\n\nProduct Analysis: " ++ product_analysis
  ++ chars "\nUser Description: " ++ user_description
  ++ chars "\n\nStructure the description with:\n1. Product overview and key features\n2. Detailed specifications\n3. Condition details\n4. Shipping and return information\n5. Professional closing\n\nUse HTML formatting for better presentation. Include:\n- Bullet points for features\n- Bold text for important information\n- Clear sections and headers\n\nMake it professional and informative to increase buyer confidence."

/-- The description generation request: model gpt-4, max_tokens 2000,
temperature 0.7. -/
def description_request (product_analysis user_description : PyStr) : ChatRequest :=
  { model := chars "gpt-4",
    messages := [{ role := chars "system",
                   content := MsgContent.str (chars "You are an expert eBay listing description writer.") },
                 { role := chars "user",
                   content := MsgContent.str (description_prompt product_analysis user_description) }],
    max_tokens := 2000,
    temperature := some (7/10) }

/-- `generate_ebay_description`: strip the response, or embed the error in
an HTML paragraph on exception. -/
def generate_ebay_description (create : Chat) (product_analysis user_description : PyStr) : PyStr :=
  match create (description_request product_analysis user_description) with
  | Except.ok content => pystrip content
  | Except.error e => chars "<p>Error generating description: " ++ e ++ chars "</p>"

/-- The prompt template of `categorize_product` (indentation elided). -/
def category_prompt (product_analysis user_description : PyStr) : PyStr :=
  chars "Based on the product analysis, suggest the most appropriate eBay category.\n\nProduct Analysis: " ++ product_analysis
  ++ chars "\nUser Description: " ++ user_description
  ++ chars "\n\nProvide the category in this format: \"Main Category > Subcategory > Specific Category\"\n\nCommon eBay categories include:\n- Electronics > Computers & Tablets > Laptops & Netbooks\n- Fashion > Women's Clothing > Tops & Blouses\n- Home & Garden > Kitchen, Dining & Bar > Small Kitchen Appliances\n- Collectibles > Trading Cards > Sports Trading Cards\n- Books > Fiction & Literature > Contemporary Fiction\n\nChoose the most specific and accurate category possible."

/-- The category request: model gpt-4, max_tokens 100, temperature 0.5. -/
def category_request (product_analysis user_description : PyStr) : ChatRequest :=
  { model := chars "gpt-4",
    messages := [{ role := chars "system",
                   content := MsgContent.str (chars "You are an expert eBay category classifier.") },
                 { role := chars "user",
                   content := MsgContent.str (category_prompt product_analysis user_description) }],
    max_tokens := 100,
    temperature := some (1/2) }

/-- `categorize_product`: strip the response, or embed the error on
exception. -/
def categorize_product (create : Chat) (product_analysis user_description : PyStr) : PyStr :=
  match create (category_request product_analysis user_description) with
  | Except.ok content => pystrip content
  | Except.error e => chars "Error categorizing product: " ++ e

/-- The prompt template of `estimate_postage_weight` (indentation elided). -/
def weight_prompt (product_analysis user_description : PyStr) : PyStr :=
  chars "Based on the product analysis, estimate the postage weight in kilograms.\n\nProduct Analysis: " ++ product_analysis
  ++ chars "\nUser Description: " ++ user_description
  ++ chars "\n\nConsider:\n- Product size and materials\n- Typical weight for similar items\n- Packaging requirements\n- Add 10-15% for packaging materials\n\nProvide only the numeric weight value in kg (e.g., 0.5 for 500g, 2.0 for 2kg).\nBe conservative and slightly overestimate for accurate shipping costs."

/-- The weight request: model gpt-4, max_tokens 50, temperature 0.3. -/
def weight_request (product_analysis user_description : PyStr) : ChatRequest :=
  { model := chars "gpt-4",
    messages := [{ role := chars "system",
                   content := MsgContent.str (chars "You are an expert shipping weight estimator.") },
                 { role := chars "user",
                   content := MsgContent.str (weight_prompt product_analysis user_description) }],
    max_tokens := 50,
    temperature := some (3/10) }

/-- The inner try/except of `estimate_postage_weight`: parse the stripped
response as a float; clamp to the 0.1 kg minimum via `max(0.1, weight)`;
substitute 0.5 if the conversion raises ValueError. -/
def clamp_weight (weight_str : PyStr) : ℚ :=
  match pyfloat weight_str with
  | some weight => max (1/10) weight
  | none => 1/2

/-- `estimate_postage_weight`: call the service and normalize the numeric
output; any service exception yields the 0.5 default. -/
def estimate_postage_weight (create : Chat) (product_analysis user_description : PyStr) : ℚ :=
  match create (weight_request product_analysis user_description) with
  | Except.ok content => clamp_weight (pystrip content)
  | Except.error _ => 1/2

/-! ## `ProductListing` and the orchestrator -/

/-- The `ProductListing` dataclass. -/
structure ProductListing where
  title : PyStr
  description : PyStr
  category : PyStr
  postage_weight : ℚ
  suggested_price : Option ℚ
deriving DecidableEq

/-- `generate_complete_listing`: run the Analysis Step; on failure raise
(modelled as `Except.error`) with the analysis error embedded; on success
run the four field generators and assemble the record. -/
def generate_complete_listing (create : Chat) (enc : PyStr → PyStr)
    (image_paths : List PyStr) (user_description : PyStr) : Except PyStr ProductListing :=
  match analyze_product_images create enc image_paths user_description with
  | AnalysisResult.failure e => Except.error (chars "Failed to analyze images: " ++ e)
  | AnalysisResult.success product_analysis =>
    Except.ok
      { title := generate_ebay_title create product_analysis user_description,
        description := generate_ebay_description create product_analysis user_description,
        category := categorize_product create product_analysis user_description,
        postage_weight := estimate_postage_weight create product_analysis user_description,
        suggested_price := none }

/-! ## `CloudStorageManager` (src/app.py) -/

/-- The storage manager state: the configured backend kind and target
bucket. -/
structure CloudStorageManager where
  storage_type : PyStr
  bucket_name : PyStr

/-- The external object-store upload (`s3_client.upload_fileobj`): given
file bytes, bucket and object key, succeed or raise. -/
abbrev Uploader := PyStr → PyStr → PyStr → Except PyStr Unit

/-- `upload_image`: on the s3 backend, upload and return the public URL;
on a raised exception report and return `None`; a non-s3 backend falls off
the end of the function and also returns `None`. -/
def upload_image (upl : Uploader) (m : CloudStorageManager)
    (image_file : PyStr) (filename : PyStr) : Option PyStr :=
  if m.storage_type = chars "s3" then
    match upl image_file m.bucket_name filename with
    | Except.ok _ => some (chars "https://" ++ m.bucket_name ++ chars ".s3.amazonaws.com/" ++ filename)
    | Except.error _ => none
  else none

/-- The object key built for the item at position `i` of the input
sequence, from the per-item timestamp `ts` (`datetime.now().strftime`). -/
def upload_filename (ts : PyStr) (i : Nat) : PyStr :=
  chars "product_images/" ++ ts ++ chars "_" ++ natChars i ++ chars ".jpg"

/-- The body of the `upload_multiple_images` loop: `now` models the
wall-clock timestamp observed at iteration `i`; `None` items are skipped,
failed uploads contribute nothing, successes are appended in order. -/
def upload_loop (upl : Uploader) (now : Nat → PyStr) (m : CloudStorageManager) :
    Nat → List (Option PyStr) → List PyStr
  | _, [] => []
  | i, none :: rest => upload_loop upl now m (i + 1) rest
  | i, some image_file :: rest =>
    match upload_image upl m image_file (upload_filename (now i) i) with
    | some url => url :: upload_loop upl now m (i + 1) rest
    | none => upload_loop upl now m (i + 1) rest

/-- `upload_multiple_images`: enumerate the input from 0 and run the
upload loop. -/
def upload_multiple_images (upl : Uploader) (now : Nat → PyStr)
    (m : CloudStorageManager) (image_files : List (Option PyStr)) : List PyStr :=
  upload_loop upl now m 0 image_files

/-- The outcome `upload_multiple_images` records for the entry at absolute
position `k`: nothing for a `None` entry, otherwise the result of
`upload_image` under the position-indexed object key. -/
def upload_item (upl : Uploader) (now : Nat → PyStr) (m : CloudStorageManager)
    (k : Nat) (entry : Option PyStr) : Option PyStr :=
  match entry with
  | some image_file => upload_image upl m image_file (upload_filename (now k) k)
  | none => none

/-! ## `eBayAPIManager` (src/app.py) -/

/-- The marketplace client state set up by `eBayAPIManager.__init__`. -/
structure eBayAPIManager where
  client_id : PyStr
  client_secret : PyStr
  redirect_uri : PyStr
  access_token : Option PyStr
  refresh_token : Option PyStr
  is_sandbox : Bool
  base_url : PyStr

/-- The fixed sandbox API base URL. -/
def sandbox_base_url : PyStr := chars "https://api.sandbox.ebay.com"

/-- The fixed production API base URL. -/
def production_base_url : PyStr := chars "https://api.ebay.com"

/-- `eBayAPIManager.__init__`: read credentials, start with no tokens, and
select the base URL from the `EBAY_SANDBOX` environment string
(`.lower() == 'true'`). -/
def eBayAPIManager.init (client_id client_secret redirect_uri ebay_sandbox : PyStr) :
    eBayAPIManager :=
  { client_id := client_id,
    client_secret := client_secret,
    redirect_uri := redirect_uri,
    access_token := none,
    refresh_token := none,
    is_sandbox := pylower ebay_sandbox = chars "true",
    base_url := if pylower ebay_sandbox = chars "true" then sandbox_base_url
                else production_base_url }

/-- Python truthiness of an optional string (`if not self.access_token`):
false for `None` and for the empty string. -/
def truthy (o : Option PyStr) : Bool :=
  match o with
  | none => false
  | some s => !s.isEmpty

/-- `get_oauth_url`: the authorization URL, built on the fixed
`auth.ebay.com` host. -/
def get_oauth_url (m : eBayAPIManager) : PyStr :=
  chars "https://auth.ebay.com/oauth2/authorize?client_id=" ++ m.client_id
  ++ chars "&response_type=code&redirect_uri=" ++ m.redirect_uri
  ++ chars "&scope=" ++ chars "https://api.ebay.com/oauth/api_scope/sell.inventory"

/-- The token-exchange endpoint, derived from the configured base URL. -/
def token_url (m : eBayAPIManager) : PyStr :=
  m.base_url ++ chars "/identity/v1/oauth2/token"

/-- The parsed token-exchange response body: `token_data.get(...)` may be
absent. -/
structure TokenData where
  access_token : Option PyStr
  refresh_token : Option PyStr

/-- The external token POST: maps (endpoint URL, authorization code) to a
parsed JSON body on HTTP success, or to the message of a raised
`RequestException` (transport error or `raise_for_status`). -/
abbrev TokenPost := PyStr → PyStr → Except PyStr TokenData

/-- `get_access_token`: on HTTP success store whatever tokens the body
holds (possibly none) and return True; on a raised request error leave the
state unchanged and return False. -/
def get_access_token (post : TokenPost) (m : eBayAPIManager)
    (authorization_code : PyStr) : eBayAPIManager × Bool :=
  match post (token_url m) authorization_code with
  | Except.ok token_data =>
    ({ m with access_token := token_data.access_token,
              refresh_token := token_data.refresh_token }, true)
  | Except.error _ => (m, false)

/-- The draft-listing endpoint, derived from the configured base URL. -/
def draft_url (m : eBayAPIManager) : PyStr :=
  m.base_url ++ chars "/sell/inventory/v1/inventory_item/draft"

/-- The draft-creation payload fields taken from the Listing Record and the
uploaded image URLs (the remaining payload fields are hardcoded constants
in the source). -/
structure DraftPayload where
  title : PyStr
  description : PyStr
  imageUrls : List PyStr

/-- An HTTP response to the draft POST: status code, body text, and the
`sku` field of the JSON body when present. -/
structure HttpResponse where
  status_code : Nat
  text : PyStr
  sku : Option PyStr

/-- The external listing POST: maps (endpoint URL, payload) to a response,
or to the message of a raised exception. -/
abbrev DraftPost := PyStr → DraftPayload → Except PyStr HttpResponse

/-- The result dictionary of `create_draft_listing`. -/
structure DraftResult where
  success : Bool
  listing_id : Option PyStr
  error : Option PyStr
deriving DecidableEq

/-- `create_draft_listing`: fail fast with no network call when no access
token is held; otherwise POST the payload and map the response status. -/
def create_draft_listing (post : DraftPost) (m : eBayAPIManager)
    (listing : ProductListing) (image_urls : List PyStr) : DraftResult :=
  if !truthy m.access_token then
    { success := false, listing_id := none,
      error := some (chars "No access token available") }
  else
    match post (draft_url m)
        { title := listing.title, description := listing.description,
          imageUrls := image_urls } with
    | Except.ok response =>
      if response.status_code = 201 then
        { success := true, listing_id := response.sku, error := none }
      else
        { success := false, listing_id := none,
          error := some (chars "API Error: " ++ natChars response.status_code
                         ++ chars " - " ++ response.text) }
    | Except.error e =>
      { success := false, listing_id := none, error := some e }

/-! ## Concrete oracles used by the witnesses -/

/-- A chat service whose every call raises. -/
def failing_chat : Chat := fun _ => Except.error (chars "boom")

/-- A chat service answering 0.02 to every call. -/
def weight_chat_low : Chat := fun _ => Except.ok (chars "0.02")

/-- A chat service answering a non-numeric string to every call. -/
def weight_chat_bad : Chat := fun _ => Except.ok (chars "abc")

/-- A chat service answering 2.5 to every call. -/
def weight_chat_pass : Chat := fun _ => Except.ok (chars "2.5")

/-- A chat service answering a 100-character title to every call. -/
def long_title_chat : Chat :=
  fun _ => Except.ok (chars "0123456789012345678901234567890123456789012345678901234567890123456789012345678901234567890123456789")

/-! ## Claims -/

/-- Claim C1: if the Analysis Step fails, `generate_complete_listing`
surfaces a single failure embedding the analysis error, and the result is
the same under any chat service agreeing on the analysis request — so none
of the four field generators influences (or is consulted for) the
outcome. -/
theorem analysis_failure_aborts_pipeline
    (create c2 : Chat) (enc : PyStr → PyStr) (image_paths : List PyStr)
    (user_description e : PyStr)
    (h : create (analysis_request enc image_paths user_description) = Except.error e) :
    generate_complete_listing create enc image_paths user_description
      = Except.error (chars "Failed to analyze images: " ++ e)
    ∧ (c2 (analysis_request enc image_paths user_description) = Except.error e →
        generate_complete_listing c2 enc image_paths user_description
          = generate_complete_listing create enc image_paths user_description) := by
  constructor
  · simp [generate_complete_listing, analyze_product_images, h]
  · intro h2
    simp [generate_complete_listing, analyze_product_images, h, h2]

/-- Witness for C1 at a concrete failing service. -/
theorem analysis_failure_aborts_pipeline_witness :
    generate_complete_listing failing_chat (fun p => p) [] []
      = Except.error (chars "Failed to analyze images: " ++ chars "boom") :=
  (analysis_failure_aborts_pipeline failing_chat failing_chat (fun p => p) [] []
    (chars "boom") rfl).1

/-- Claim C2: an output parsing as a number at least 0.1 is stored as is,
one below 0.1 is clamped to 0.1, an unparseable output yields exactly 0.5,
and in every case (failed service call included) the stored weight is at
least 0.1. -/
theorem postage_weight_policy (create : Chat) (product_analysis user_description : PyStr) :
    (∀ raw w, create (weight_request product_analysis user_description) = Except.ok raw →
       pyfloat (pystrip raw) = some w →
       ((1/10 : ℚ) ≤ w →
          estimate_postage_weight create product_analysis user_description = w)
       ∧ (w < 1/10 →
          estimate_postage_weight create product_analysis user_description = 1/10))
    ∧ (∀ raw, create (weight_request product_analysis user_description) = Except.ok raw →
        pyfloat (pystrip raw) = none →
        estimate_postage_weight create product_analysis user_description = 1/2)
    ∧ (1/10 : ℚ) ≤ estimate_postage_weight create product_analysis user_description := by
  refine ⟨?_, ?_, ?_⟩
  · intro raw w hr hp
    have base : estimate_postage_weight create product_analysis user_description
        = max (1/10) w := by
      simp [estimate_postage_weight, hr, clamp_weight, hp]
    constructor
    · intro hw
      rw [base, max_eq_right hw]
    · intro hw
      rw [base, max_eq_left (le_of_lt hw)]
  · intro raw hr hp
    simp [estimate_postage_weight, hr, clamp_weight, hp]
  · rcases hr : create (weight_request product_analysis user_description) with e | content
    · norm_num [estimate_postage_weight, hr]
    · rcases hp : pyfloat (pystrip content) with _ | w
      · norm_num [estimate_postage_weight, hr, clamp_weight, hp]
      · have base : estimate_postage_weight create product_analysis user_description
            = max (1/10) w := by
          simp [estimate_postage_weight, hr, clamp_weight, hp]
        rw [base]
        exact le_max_left _ _

/-- Witness for C2 on the raw outputs 0.02 (clamped), abc (default) and
2.5 (kept). -/
theorem postage_weight_policy_witness :
    estimate_postage_weight weight_chat_low (chars "a") (chars "u") = 1/10
    ∧ estimate_postage_weight weight_chat_bad (chars "a") (chars "u") = 1/2
    ∧ estimate_postage_weight weight_chat_pass (chars "a") (chars "u") = 5/2 := by
  have hlow : pyfloat (pystrip (chars "0.02")) = some (1/50) := by
    have hl : pyfloat_lex (pystrip (chars "0.02"))
        = some { neg := false, ip := ['0'], fp := ['0', '2'], expNeg := false, ed := [] } := by
      decide
    have e1 : natOfDigits ['0'] = 0 := rfl
    have e2 : natOfDigits (['0', '2'] : List Char) = 2 := rfl
    have e3 : natOfDigits ([] : List Char) = 0 := rfl
    simp [pyfloat, hl, pyfloat_val, e1, e2, e3]
    norm_num
  have hbad : pyfloat (pystrip (chars "abc")) = none := by
    have hl : pyfloat_lex (pystrip (chars "abc")) = none := by decide
    simp [pyfloat, hl]
  have hpass : pyfloat (pystrip (chars "2.5")) = some (5/2) := by
    have hl : pyfloat_lex (pystrip (chars "2.5"))
        = some { neg := false, ip := ['2'], fp := ['5'], expNeg := false, ed := [] } := by
      decide
    have e1 : natOfDigits ['2'] = 2 := rfl
    have e2 : natOfDigits (['5'] : List Char) = 5 := rfl
    have e3 : natOfDigits ([] : List Char) = 0 := rfl
    simp [pyfloat, hl, pyfloat_val, e1, e2, e3]
    norm_num
  exact
    ⟨((postage_weight_policy weight_chat_low (chars "a") (chars "u")).1
        (chars "0.02") (1/50) rfl hlow).2 (by norm_num),
     (postage_weight_policy weight_chat_bad (chars "a") (chars "u")).2.1
        (chars "abc") rfl hbad,
     ((postage_weight_policy weight_chat_pass (chars "a") (chars "u")).1
        (chars "2.5") (5/2) rfl hpass).1 (by norm_num)⟩

/-- Claim C3: a generated title longer than 80 characters is stored as its
80-character prefix (of length exactly 80); a title of at most 80
characters is stored unchanged. -/
theorem title_truncation_policy (create : Chat) (product_analysis user_description raw : PyStr)
    (h : create (title_request product_analysis user_description) = Except.ok raw) :
    generate_ebay_title create product_analysis user_description
      = (if 80 < (pystrip raw).length then (pystrip raw).take 80 else pystrip raw)
    ∧ (80 < (pystrip raw).length →
        (generate_ebay_title create product_analysis user_description).length = 80)
    ∧ ((pystrip raw).length ≤ 80 →
        generate_ebay_title create product_analysis user_description = pystrip raw) := by
  refine ⟨?_, ?_, ?_⟩
  · simp [generate_ebay_title, h, truncate_title]
  · intro hl
    simp [generate_ebay_title, h, truncate_title, hl, List.length_take,
      Nat.min_eq_left (le_of_lt hl)]
  · intro hl
    simp [generate_ebay_title, h, truncate_title, Nat.not_lt.mpr hl]

/-- Witness for C3 at a concrete 100-character model output. -/
theorem title_truncation_policy_witness :
    (generate_ebay_title long_title_chat (chars "a") (chars "u")).length = 80 :=
  (title_truncation_policy long_title_chat (chars "a") (chars "u") _ rfl).2.1 (by decide)

/-- Claim C6: a service error during the analysis call is captured inside
`analyze_product_images` and returned as a tagged failure carrying the
error message; the function is total (never raises) by construction. -/
theorem analysis_errors_returned_tagged
    (create : Chat) (enc : PyStr → PyStr) (image_paths : List PyStr)
    (user_description e : PyStr)
    (h : create (analysis_request enc image_paths user_description) = Except.error e) :
    analyze_product_images create enc image_paths user_description
      = AnalysisResult.failure e := by
  simp [analyze_product_images, h]

/-- Witness for C6 at a concrete failing service. -/
theorem analysis_errors_returned_tagged_witness :
    analyze_product_images failing_chat (fun p => p) [] []
      = AnalysisResult.failure (chars "boom") :=
  analysis_errors_returned_tagged failing_chat (fun p => p) [] [] (chars "boom") rfl

/-- Claim C4: the Analysis Step request carries exactly the encodings of
the first 6 input images, in order; when 6 or fewer images are supplied,
all of them are carried. -/
theorem analysis_request_uses_first_six_images (enc : PyStr → PyStr)
    (image_paths : List PyStr) (user_description : PyStr) :
    request_images (analysis_request enc image_paths user_description)
      = (image_paths.take 6).map (fun p => chars "data:image/jpeg;base64," ++ enc p)
    ∧ (image_paths.length ≤ 6 →
        request_images (analysis_request enc image_paths user_description)
          = image_paths.map (fun p => chars "data:image/jpeg;base64," ++ enc p)) := by
  have key : ∀ l : List PyStr,
      List.filterMap
        (fun part =>
          match part with
          | ContentPart.image_url u => some u
          | ContentPart.text _ => none)
        (l.map (image_content enc))
      = l.map (fun p => chars "data:image/jpeg;base64," ++ enc p) := by
    intro l
    induction l with
    | nil => rfl
    | cons a t ih => simp [image_content, ih]
  have main : request_images (analysis_request enc image_paths user_description)
      = (image_paths.take 6).map (fun p => chars "data:image/jpeg;base64," ++ enc p) := by
    simp [request_images, analysis_request, analysis_messages, content_images,
      image_contents, ← List.map_take, key]
  exact ⟨main, fun h => by rw [main, List.take_of_length_le h]⟩

/-- Eight image paths used by the C4 witness. -/
def eight_paths : List PyStr :=
  [chars "p1", chars "p2", chars "p3", chars "p4",
   chars "p5", chars "p6", chars "p7", chars "p8"]

/-- Witness for C4: with 8 inputs exactly the first 6 are carried; with 2
inputs both are carried. -/
theorem analysis_request_uses_first_six_images_witness :
    request_images (analysis_request (fun p => p) eight_paths [])
      = [chars "data:image/jpeg;base64,p1", chars "data:image/jpeg;base64,p2",
         chars "data:image/jpeg;base64,p3", chars "data:image/jpeg;base64,p4",
         chars "data:image/jpeg;base64,p5", chars "data:image/jpeg;base64,p6"]
    ∧ request_images (analysis_request (fun p => p) [chars "q1", chars "q2"] [])
      = [chars "data:image/jpeg;base64,q1", chars "data:image/jpeg;base64,q2"] := by
  constructor
  · rw [(analysis_request_uses_first_six_images (fun p => p) eight_paths []).1]
    decide
  · rw [(analysis_request_uses_first_six_images (fun p => p)
      [chars "q1", chars "q2"] []).2 (by decide)]
    decide

/-- Claim C5: when the Analysis Step succeeds, `generate_complete_listing`
returns a complete record even if field generators fail: a failed title,
description or category call stores an error-describing string in that
field, and a failed weight call stores the 0.5 default; no field is
absent. -/
theorem generator_failure_degrades_fields
    (create : Chat) (enc : PyStr → PyStr) (image_paths : List PyStr)
    (user_description a : PyStr)
    (h : create (analysis_request enc image_paths user_description) = Except.ok a) :
    ∃ listing : ProductListing,
      generate_complete_listing create enc image_paths user_description
        = Except.ok listing
      ∧ (∀ e, create (title_request a user_description) = Except.error e →
          listing.title = chars "Error generating title: " ++ e)
      ∧ (∀ e, create (description_request a user_description) = Except.error e →
          listing.description = chars "<p>Error generating description: " ++ e ++ chars "</p>")
      ∧ (∀ e, create (category_request a user_description) = Except.error e →
          listing.category = chars "Error categorizing product: " ++ e)
      ∧ (∀ e, create (weight_request a user_description) = Except.error e →
          listing.postage_weight = 1/2) := by
  refine ⟨{ title := generate_ebay_title create a user_description,
            description := generate_ebay_description create a user_description,
            category := categorize_product create a user_description,
            postage_weight := estimate_postage_weight create a user_description,
            suggested_price := none }, ?_, ?_, ?_, ?_, ?_⟩
  · simp [generate_complete_listing, analyze_product_images, h]
  · intro e he
    simp [generate_ebay_title, he]
  · intro e he
    simp [generate_ebay_description, he]
  · intro e he
    simp [categorize_product, he]
  · intro e he
    simp [estimate_postage_weight, he]

/-- A chat service that answers the analysis call and raises on every
other call. -/
def degraded_chat : Chat := fun r =>
  if r.model = chars "gpt-4-vision-preview" then Except.ok (chars "analysis")
  else Except.error (chars "down")

/-- Witness for C5: with all four generator calls failing, the pipeline
still returns a record, with the error embedded in the title and the 0.5
default weight. -/
theorem generator_failure_degrades_fields_witness :
    ∃ listing : ProductListing,
      generate_complete_listing degraded_chat (fun p => p) [] [] = Except.ok listing
      ∧ listing.title = chars "Error generating title: " ++ chars "down"
      ∧ listing.postage_weight = 1/2 := by
  obtain ⟨l, h1, h2, h3, h4, h5⟩ :=
    generator_failure_degrades_fields degraded_chat (fun p => p) [] [] (chars "analysis") rfl
  exact ⟨l, h1, h2 (chars "down") rfl, h5 (chars "down") rfl⟩

/-- Claim C7: invoked with no access token held, `create_draft_listing`
returns the descriptive failure immediately, and the result is the same
under any two network oracles — no network request is performed. -/
theorem create_draft_requires_access_token
    (post1 post2 : DraftPost) (m : eBayAPIManager) (listing : ProductListing)
    (image_urls : List PyStr) (h : m.access_token = none) :
    create_draft_listing post1 m listing image_urls
      = { success := false, listing_id := none,
          error := some (chars "No access token available") }
    ∧ create_draft_listing post1 m listing image_urls
        = create_draft_listing post2 m listing image_urls := by
  constructor <;> simp [create_draft_listing, truthy, h]

/-- A freshly initialized manager (no OAuth exchange performed). -/
def manager0 : eBayAPIManager :=
  eBayAPIManager.init (chars "id") (chars "secret") (chars "uri") (chars "true")

/-- A concrete Listing Record for the publisher witnesses. -/
def listing0 : ProductListing :=
  { title := chars "t", description := chars "d", category := chars "c",
    postage_weight := 1, suggested_price := none }

/-- A draft POST oracle that would answer 201. -/
def draft_post_ok : DraftPost :=
  fun _ _ => Except.ok { status_code := 201, text := chars "", sku := some (chars "sku1") }

/-- A draft POST oracle that would raise. -/
def draft_post_down : DraftPost := fun _ _ => Except.error (chars "net down")

/-- Witness for C7 on a freshly initialized manager. -/
theorem create_draft_requires_access_token_witness :
    create_draft_listing draft_post_ok manager0 listing0 []
      = { success := false, listing_id := none,
          error := some (chars "No access token available") }
    ∧ create_draft_listing draft_post_ok manager0 listing0 []
        = create_draft_listing draft_post_down manager0 listing0 [] :=
  create_draft_requires_access_token draft_post_ok draft_post_down manager0 listing0 [] rfl

/-- The upload loop visits entries in order, processing the entry at
offset `j` with absolute index `i + j`, skipping `None` entries and failed
uploads while continuing with the rest. -/
theorem upload_loop_eq (upl : Uploader) (now : Nat → PyStr) (m : CloudStorageManager) :
    ∀ (image_files : List (Option PyStr)) (i : Nat),
      upload_loop upl now m i image_files
        = (List.range image_files.length).filterMap
            (fun j => (image_files.get? j).elim none
              (fun entry => upload_item upl now m (i + j) entry)) := by
  intro image_files
  induction image_files with
  | nil =>
    intro i
    rfl
  | cons a rest ih =>
    intro i
    rw [List.length_cons, List.range_succ_eq_map, List.filterMap_cons, List.filterMap_map]
    have hcomp : ((fun j => ((a :: rest).get? j).elim none
          (fun entry => upload_item upl now m (i + j) entry)) ∘ Nat.succ)
        = (fun j => (rest.get? j).elim none
            (fun entry => upload_item upl now m ((i + 1) + j) entry)) := by
      funext j
      have harith : i + Nat.succ j = (i + 1) + j := by omega
      simp [Function.comp, harith]
    rw [hcomp, ← ih (i + 1)]
    cases a with
    | none => simp [upload_loop, upload_item]
    | some image_file =>
      rcases hu : upload_image upl m image_file (upload_filename (now i) i) with _ | url
      · simp [upload_loop, upload_item, hu]
      · simp [upload_loop, upload_item, hu]

/-- Claim C8: `upload_multiple_images` produces at most one URL per input
item, processing each position independently (skipping `None` entries and
failed uploads while continuing), and every produced URL comes from an
object named from the iteration timestamp and the item's position in the
input sequence. -/
theorem upload_multiple_images_contract (upl : Uploader) (now : Nat → PyStr)
    (m : CloudStorageManager) (image_files : List (Option PyStr)) :
    upload_multiple_images upl now m image_files
      = (List.range image_files.length).filterMap
          (fun j => (image_files.get? j).elim none
            (fun entry => upload_item upl now m j entry))
    ∧ (upload_multiple_images upl now m image_files).length ≤ image_files.length
    ∧ ∀ u ∈ upload_multiple_images upl now m image_files,
        ∃ i image_file, image_files.get? i = some (some image_file)
          ∧ upload_image upl m image_file (upload_filename (now i) i) = some u := by
  have key0 : upload_multiple_images upl now m image_files
      = (List.range image_files.length).filterMap
          (fun j => (image_files.get? j).elim none
            (fun entry => upload_item upl now m j entry)) := by
    rw [upload_multiple_images, upload_loop_eq upl now m image_files 0]
    simp
  refine ⟨key0, ?_, ?_⟩
  · rw [key0]
    calc ((List.range image_files.length).filterMap
          (fun j => (image_files.get? j).elim none
            (fun entry => upload_item upl now m j entry))).length
        ≤ (List.range image_files.length).length := List.length_filterMap_le _ _
      _ = image_files.length := List.length_range _
  · intro u hu
    rw [key0] at hu
    obtain ⟨j, hj, hf⟩ := List.mem_filterMap.mp hu
    rcases hget : image_files.get? j with _ | entry
    · rw [hget] at hf
      simp at hf
    · rcases entry with _ | image_file
      · rw [hget] at hf
        simp [upload_item] at hf
      · refine ⟨j, image_file, hget, ?_⟩
        rw [hget] at hf
        simpa [upload_item] using hf

/-- An upload oracle that always succeeds. -/
def upload_ok : Uploader := fun _ _ _ => Except.ok ()

/-- A storage manager configured for the s3 backend. -/
def storage0 : CloudStorageManager :=
  { storage_type := chars "s3", bucket_name := chars "b" }

/-- A fixed wall clock for the C8 witness. -/
def clock0 : Nat → PyStr := fun _ => chars "20240101_000000"

/-- Witness for C8 on a two-entry input with one `None` entry. -/
theorem upload_multiple_images_contract_witness :
    (upload_multiple_images upload_ok clock0 storage0 [some (chars "x"), none]).length ≤ 2
    ∧ ∃ i image_file,
        ([some (chars "x"), none] : List (Option PyStr)).get? i = some (some image_file)
        ∧ upload_image upload_ok storage0 image_file (upload_filename (clock0 i) i)
            = some (chars "https://b.s3.amazonaws.com/product_images/20240101_000000_0.jpg") :=
  ⟨(upload_multiple_images_contract upload_ok clock0 storage0
      [some (chars "x"), none]).2.1,
   (upload_multiple_images_contract upload_ok clock0 storage0
      [some (chars "x"), none]).2.2
     (chars "https://b.s3.amazonaws.com/product_images/20240101_000000_0.jpg") (by decide)⟩

/-- Claim C9: an HTTP-successful token exchange whose body carries no
access token still returns True, leaves the stored access token `None`,
and a subsequent `create_draft_listing` on the resulting state fails with
the no-token error. -/
theorem token_success_can_leave_unauthenticated
    (post : TokenPost) (dp : DraftPost) (m : eBayAPIManager)
    (authorization_code : PyStr) (td : TokenData) (listing : ProductListing)
    (image_urls : List PyStr)
    (h : post (token_url m) authorization_code = Except.ok td)
    (hta : td.access_token = none) :
    (get_access_token post m authorization_code).2 = true
    ∧ (get_access_token post m authorization_code).1.access_token = none
    ∧ create_draft_listing dp (get_access_token post m authorization_code).1
        listing image_urls
        = { success := false, listing_id := none,
            error := some (chars "No access token available") } := by
  refine ⟨?_, ?_, ?_⟩ <;>
    simp [get_access_token, h, hta, create_draft_listing, truthy]

/-- A token POST oracle answering HTTP success with an empty body. -/
def token_post_empty : TokenPost :=
  fun _ _ => Except.ok { access_token := none, refresh_token := none }

/-- Witness for C9 on a fresh manager and an empty token body. -/
theorem token_success_can_leave_unauthenticated_witness :
    (get_access_token token_post_empty manager0 (chars "code")).2 = true
    ∧ (get_access_token token_post_empty manager0 (chars "code")).1.access_token = none
    ∧ create_draft_listing draft_post_ok
        (get_access_token token_post_empty manager0 (chars "code")).1 listing0 []
        = { success := false, listing_id := none,
            error := some (chars "No access token available") } :=
  token_success_can_leave_unauthenticated token_post_empty draft_post_ok manager0
    (chars "code") { access_token := none, refresh_token := none } listing0 [] rfl rfl

/-- Claim C10: the authorization URL is built on the fixed production host
auth.ebay.com independently of the sandbox flag, while the token-exchange
and draft-listing endpoints switch between the sandbox and production base
URLs according to the flag. -/
theorem oauth_url_fixed_production_host
    (client_id client_secret redirect_uri sb1 sb2 : PyStr) :
    get_oauth_url (eBayAPIManager.init client_id client_secret redirect_uri sb1)
      = get_oauth_url (eBayAPIManager.init client_id client_secret redirect_uri sb2)
    ∧ (∃ rest, get_oauth_url (eBayAPIManager.init client_id client_secret redirect_uri sb1)
        = chars "https://auth.ebay.com" ++ rest)
    ∧ token_url (eBayAPIManager.init client_id client_secret redirect_uri (chars "true"))
        = chars "https://api.sandbox.ebay.com/identity/v1/oauth2/token"
    ∧ token_url (eBayAPIManager.init client_id client_secret redirect_uri (chars "false"))
        = chars "https://api.ebay.com/identity/v1/oauth2/token"
    ∧ draft_url (eBayAPIManager.init client_id client_secret redirect_uri (chars "true"))
        = chars "https://api.sandbox.ebay.com/sell/inventory/v1/inventory_item/draft"
    ∧ draft_url (eBayAPIManager.init client_id client_secret redirect_uri (chars "false"))
        = chars "https://api.ebay.com/sell/inventory/v1/inventory_item/draft" := by
  refine ⟨rfl,
    ⟨chars "/oauth2/authorize?client_id=" ++ client_id
      ++ chars "&response_type=code&redirect_uri=" ++ redirect_uri
      ++ chars "&scope=" ++ chars "https://api.ebay.com/oauth/api_scope/sell.inventory", ?_⟩,
    rfl, rfl, rfl, rfl⟩
  have hsplit : chars "https://auth.ebay.com/oauth2/authorize?client_id="
      = chars "https://auth.ebay.com" ++ chars "/oauth2/authorize?client_id=" := by
    decide
  simp [get_oauth_url, eBayAPIManager.init, hsplit]
